import Mathlib

/-!
Shallow embedding of the slot-filling appointment agent in
`src/extraction/agent.py` (VaaniCare).  Python dictionaries are modelled as
association lists ordered by insertion, Python values that occur in the
appointment context as an optional `Value` (a string or a list of strings,
`none` standing for Python `None`), and Python truthiness by `Value.truthy` /
`optTruthy`.  The Ollama call and `json.loads` are external library calls;
they enter as parameters (`og : String → Except String String`, an oracle
that may raise, and `jl : String → Option Extracted`, a parser that fails on
non-JSON input).  The global mutable `appointment_context` is passed as
explicit state; a Python exception inside a turn is an `Except.error`
carrying `str(e)` and is paired with the (possibly partially mutated) state,
exactly as the global survives a raised `KeyError`.
-/

namespace VaaniCare

/-- Value universe for context/extraction entries: a Python string or a
Python list of strings (as the model returns for `symptoms`). -/
inductive Value where
  | str (s : String)
  | list (xs : List String)
deriving DecidableEq, Repr

/-- Python truthiness of a `Value`: a string is truthy iff non-empty, a list
iff non-empty. -/
def Value.truthy : Value → Bool
  | .str s => s ≠ ""
  | .list xs => !xs.isEmpty

/-- Python truthiness of an optional value: `None` is falsy. -/
def optTruthy : Option Value → Bool
  | none => false
  | some v => v.truthy

/-- Appointment context: insertion-ordered mapping from field name to
optional value (agent.py lines 36-43 initialise it with six keys). -/
abbrev Ctx := List (String × Option Value)

/-- Extraction result: the dict produced by `json.loads` on the model
response, an insertion-ordered mapping from key to optional value. -/
abbrev Extracted := List (String × Option Value)

/-- Python `d[k]`: `some` of the stored value when the key is present,
`none` when indexing would raise `KeyError`. -/
def ctxGet : Ctx → String → Option (Option Value)
  | [], _ => none
  | kv :: rest, k => if kv.1 = k then some kv.2 else ctxGet rest k

/-- Python `d.get(k)`: the stored value, defaulting to `None` on a missing
key (a stored `None` and a missing key collapse, as in the source's
`context.get(field)` checks). -/
def dictGet (c : Ctx) (k : String) : Option Value :=
  match ctxGet c k with
  | some v => v
  | none => none

/-- Python `d[k] = v` on a dict that already has the key: replace the value
at every entry whose key matches (real contexts have unique keys). -/
def ctxSet : Ctx → String → Option Value → Ctx
  | [], _, _ => []
  | kv :: rest, k, v =>
    if kv.1 = k then (kv.1, v) :: ctxSet rest k v else kv :: ctxSet rest k v

/-- Initial `appointment_context` (agent.py lines 36-43): six fields, all
`None`.  Note: `patient_age` and `patient_phone` have no slot. -/
def initContext : Ctx :=
  [("doctor_specialty", none), ("preferred_date", none), ("preferred_time", none),
   ("patient_name", none), ("reason", none), ("symptoms", none)]

/-- Required fields of `identify_missing_info_logic` (agent.py line 101). -/
def required_fields : List String :=
  ["doctor_specialty", "preferred_date", "preferred_time", "patient_name", "reason"]

/-- Agent.py lines 95-103: the required fields whose context value is falsy,
in the order of `required_fields`. -/
def identify_missing_info_logic (context : Ctx) : List String :=
  required_fields.filter (fun field => !optTruthy (dictGet context field))

/-- Agent.py lines 18-33 (`call_ollama`): forwards the prompt to the Ollama
client and returns its text; any exception is caught and degrades to the
empty string. -/
def call_ollama (og : String → Except String String) (prompt : String) : String :=
  match og prompt with
  | Except.ok r => r
  | Except.error _ => ""

/-- Extraction instruction built by `extract_appointment_info_logic`
(agent.py lines 52-74). -/
def extractionPrompt (user_input : String) : String :=
  "Extract appointment booking information from this user message. Return ONLY valid JSON.\n\n" ++
  "Instructions:\n" ++
  "- Extract values that are explicitly mentioned\n" ++
  "- Return null for fields not mentioned\n" ++
  "- For dates: parse \"tomorrow\", \"next Monday\" etc to actual dates (today is 2026-01-04)\n" ++
  "- For doctor specialty: accept common terms like \"pediatrician\", \"paediatric\", \"paediatrician\", \"cardiologist\", etc.\n" ++
  "- For time: parse \"noon\" as \"12:00 PM\", \"morning\" as a range, etc.\n" ++
  "- Only extract information actually stated by the user\n\n" ++
  "Fields to extract (all should be present, use null if not mentioned):\n" ++
  "- doctor_specialty\n" ++
  "- preferred_date\n" ++
  "- preferred_time\n" ++
  "- patient_name\n" ++
  "- patient_age\n" ++
  "- patient_phone\n" ++
  "- reason\n" ++
  "- symptoms\n\n" ++
  "User message: \"" ++ user_input ++ "\"\n\n" ++
  "Return ONLY valid JSON, no explanation."

/-- Python `str.strip()` at the character level: drop whitespace from both
ends. -/
def pyStrip (xs : List Char) : List Char :=
  ((xs.dropWhile Char.isWhitespace).reverse.dropWhile Char.isWhitespace).reverse

/-- Markdown-fence stripping of the model response (agent.py lines 79-86):
strip whitespace, drop a leading three-backtick json fence (7 characters),
then a leading bare fence (3), then a trailing fence (3), then strip again.
Python slices strings by code point, so this is carried out on the
character list. -/
def stripResponse (s : String) : String :=
  let t := pyStrip s.data
  let t := if "```json".data.isPrefixOf t then t.drop 7 else t
  let t := if "```".data.isPrefixOf t then t.drop 3 else t
  let t := if "```".data.reverse.isPrefixOf t.reverse then (t.reverse.drop 3).reverse else t
  String.mk (pyStrip t)

/-- Agent.py lines 47-93 (`extract_appointment_info_logic`): call the
oracle, strip fences, parse JSON; a parse failure (`JSONDecodeError`)
degrades to the empty mapping.  Total: it never raises to its caller. -/
def extract_appointment_info_logic (og : String → Except String String)
    (jl : String → Option Extracted) (user_input : String) : Extracted :=
  match jl (stripResponse (call_ollama og (extractionPrompt user_input))) with
  | some extracted => extracted
  | none => []

/-- Merge loop of `process_appointment_booking` (agent.py lines 217-219):
`for key, value in extracted.items(): if value and not appointment_context[key]:
appointment_context[key] = value`.  Indexing a key absent from the context
raises `KeyError` (whose `str` is the quoted key); the loop stops there and
the mutations already made survive, so the result pairs the final context
with the optional exception message. -/
def mergeStep : Ctx → Extracted → Ctx × Option String
  | ctx, [] => (ctx, none)
  | ctx, (k, v) :: rest =>
    if optTruthy v then
      match ctxGet ctx k with
      | none => (ctx, some ("\x27" ++ k ++ "\x27"))
      | some cur =>
        if optTruthy cur then mergeStep ctx rest
        else mergeStep (ctxSet ctx k v) rest
    else mergeStep ctx rest

/-- Symptom-as-reason fallback (agent.py lines 221-223): after merging, if
`symptoms` is truthy and `reason` is not, copy `symptoms` into `reason`. -/
def symptomFallback (ctx : Ctx) : Ctx :=
  if optTruthy (dictGet ctx "symptoms") && !optTruthy (dictGet ctx "reason") then
    ctxSet ctx "reason" (dictGet ctx "symptoms")
  else ctx

/-- Agent.py lines 196-207 (`update_appointment_context`): iterate over the
context's keys; write `extracted_info[key]` into a key whose extracted value
is truthy and whose current context value is falsy; return unchanged on a
falsy (empty) extraction. -/
def update_appointment_context (ctx : Ctx) (extracted_info : Extracted) : Ctx :=
  if extracted_info.isEmpty then ctx
  else
    (ctx.map Prod.fst).foldl
      (fun c key =>
        if optTruthy (dictGet extracted_info key) && !optTruthy (dictGet c key) then
          ctxSet c key (dictGet extracted_info key)
        else c)
      ctx

/-- Python `s.replace("_", " ")` for field names (character by character,
the pattern being a single character). -/
def underscoreToSpace (s : String) : String :=
  String.mk (s.data.map (fun c => if c = '_' then ' ' else c))

/-- Python `str.title()`: the first letter of each alphabetic run is
uppercased, the rest lowercased. -/
def pyTitle (s : String) : String :=
  String.mk
    (s.data.foldl
      (fun (acc : List Char × Bool) c =>
        if c.isAlpha then
          (acc.1 ++ [if acc.2 then c.toLower else c.toUpper], true)
        else (acc.1 ++ [c], false))
      ([], false)).1

/-- Python `repr` of a string as it appears inside `str` of a list (quote
escaping elided: the agent never produces quotes inside symptom items). -/
def pyReprStr (s : String) : String :=
  "\x27" ++ s ++ "\x27"

/-- Python `str(value)` as used in the collected-info display f-string. -/
def Value.pyStr : Value → String
  | .str s => s
  | .list xs => "[" ++ String.intercalate ", " (xs.map pyReprStr) ++ "]"

/-- Python `str` of an optional value (`None` prints as such). -/
def optPyStr : Option Value → String
  | none => "None"
  | some v => v.pyStr

/-- Collected info (agent.py line 229): the truthy entries of the context. -/
def collectedInfo (ctx : Ctx) : List (String × Option Value) :=
  ctx.filter (fun kv => optTruthy kv.2)

/-- Collected-so-far display block (agent.py lines 235-241). -/
def collectedDisplay (collected : List (String × Option Value)) : String :=
  if collected.isEmpty then ""
  else
    (collected.foldl
      (fun acc kv =>
        acc ++ "  • " ++ pyTitle (underscoreToSpace kv.1) ++ ": " ++ optPyStr kv.2 ++ "\n")
      "✓ Information collected so far:\n") ++ "\n"

/-- Prompt of `generate_clarification_questions_logic` (agent.py
lines 115-120). -/
def questionsPrompt (fields_text : String) : String :=
  "Generate 1-2 brief, natural follow-up questions to ask the user to get this missing information:\n" ++
  fields_text ++ "\n\n" ++
  "Be conversational and helpful. Ask for all the missing information together if possible.\n" ++
  "Keep questions short and natural, as if talking to someone in person.\n" ++
  "Do not number the questions. Just ask naturally."

/-- Agent.py lines 105-122: a fixed message on an empty missing list,
otherwise the oracle's answer to the questions prompt. -/
def generate_clarification_questions_logic (og : String → Except String String)
    (missing_fields : List String) : String :=
  if missing_fields.isEmpty then "All information collected!"
  else
    call_ollama og
      (questionsPrompt (String.intercalate ", " (missing_fields.map underscoreToSpace)))

/-- Turn result dictionary (agent.py lines 243-258 and 268-271): each
Python key becomes an optional field, `none` meaning the key is absent from
that variant. -/
structure TurnResult where
  status : String
  extracted_info : Option Ctx
  collected_info : Option (List (String × Option Value))
  missing_fields : Option (List String)
  questions : Option String
  message : Option String
  response : Option String
deriving DecidableEq, Repr

/-- Fixed ask-symptoms message (agent.py line 257). -/
def askSymptomsMessage : String :=
  "Great! I have all the required information.\n\nDo you have any additional symptoms or concerns you\x27d like to mention? (Type \x27done\x27 if nothing more to add)"

/-- Agent.py lines 209-258 (`process_appointment_booking`): extract, merge
into the context, apply the symptom-as-reason fallback, recompute the
missing required fields, and branch into `collecting_info` or
`ask_symptoms`.  Returns the final context (the mutated global) together
with the result or the message of an exception raised during the merge. -/
def process_appointment_booking (og : String → Except String String)
    (jl : String → Option Extracted) (ctx : Ctx) (user_input : String) :
    Ctx × Except String TurnResult :=
  let extracted := extract_appointment_info_logic og jl user_input
  match mergeStep ctx extracted with
  | (ctx1, some e) => (ctx1, Except.error e)
  | (ctx1, none) =>
    let ctx2 := symptomFallback ctx1
    let missing_required := identify_missing_info_logic ctx2
    let collected := collectedInfo ctx2
    if !missing_required.isEmpty then
      let questions := generate_clarification_questions_logic og missing_required
      (ctx2, Except.ok (TurnResult.mk "collecting_info" (some ctx2) (some collected)
        (some missing_required) (some questions)
        (some (collectedDisplay collected ++ "Still need: " ++
          String.intercalate ", " (missing_required.map underscoreToSpace) ++
          "\n\n" ++ questions))
        none))
    else
      (ctx2, Except.ok (TurnResult.mk "ask_symptoms" (some ctx2) (some collected)
        none none (some askSymptomsMessage) none))

/-- Agent.py lines 260-271 (`process_user_input`): run a turn; any exception
is caught and reported as a result with status `error` and the exception's
message under the key `response` (no other key is set). -/
def process_user_input (og : String → Except String String)
    (jl : String → Option Extracted) (ctx : Ctx) (user_input : String) :
    TurnResult × Ctx :=
  match process_appointment_booking og jl ctx user_input with
  | (ctx1, Except.ok r) => (r, ctx1)
  | (ctx1, Except.error e) =>
    (TurnResult.mk "error" none none none none none (some e), ctx1)

/-- Agent.py lines 273-275 (`is_all_fields_filled`): true iff no context
value is `None` (an empty string counts as filled here). -/
def is_all_fields_filled (ctx : Ctx) : Bool :=
  ctx.all (fun kv => !kv.2.isNone)

/-- Python `", ".join` applied when a symptoms value is a list (agent.py
lines 341-342 and 347-348); a plain string passes through. -/
def valueJoin : Value → String
  | .str s => s
  | .list xs => String.intercalate ", " xs

/-- Symptom-append step of the interactive loop (agent.py lines 335-351):
when the new extraction has truthy `symptoms`, join a list value to a
string; append to a truthy existing value as `existing ++ ", " ++ new`
(joining a list-valued existing first), otherwise store the new text. -/
def append_symptoms (ctx : Ctx) (extracted_symptoms : Extracted) : Ctx :=
  match dictGet extracted_symptoms "symptoms" with
  | some v =>
    if v.truthy then
      let symptom_text := valueJoin v
      match dictGet ctx "symptoms" with
      | some existing =>
        if existing.truthy then
          ctxSet ctx "symptoms" (some (Value.str (valueJoin existing ++ ", " ++ symptom_text)))
        else ctxSet ctx "symptoms" (some (Value.str symptom_text))
      | none => ctxSet ctx "symptoms" (some (Value.str symptom_text))
    else ctx
  | none => ctx

/-! Concrete fixtures used by witnesses and counterexamples. -/

/-- Oracle stub that answers every prompt with the empty completion. -/
def oracleEmpty : String → Except String String := fun _ => Except.ok ""

/-- Oracle stub that answers every prompt with the completion "q". -/
def oracleQ : String → Except String String := fun _ => Except.ok "q"

/-- Parse stub standing for a model response that mentions a specialty and a
patient age: the extraction dict carries a key the context has no slot
for. -/
def parseWithAge : String → Option Extracted := fun _ =>
  some [("doctor_specialty", some (Value.str "cardiology")),
        ("patient_age", some (Value.str "30"))]

/-- Parse stub standing for a model response that fills exactly the five
required fields. -/
def parseAllRequired : String → Option Extracted := fun _ =>
  some [("doctor_specialty", some (Value.str "cardiology")),
        ("preferred_date", some (Value.str "2026-01-05")),
        ("preferred_time", some (Value.str "12:00 PM")),
        ("patient_name", some (Value.str "Asha")),
        ("reason", some (Value.str "fever"))]

/-- Context obtained from `initContext` by filling the five required
fields. -/
def allRequiredCtx : Ctx :=
  [("doctor_specialty", some (Value.str "cardiology")),
   ("preferred_date", some (Value.str "2026-01-05")),
   ("preferred_time", some (Value.str "12:00 PM")),
   ("patient_name", some (Value.str "Asha")),
   ("reason", some (Value.str "fever")), ("symptoms", none)]

/-- Turn result of a turn that fills all required fields from an empty
context. -/
def allRequiredTurnResult : TurnResult :=
  TurnResult.mk "ask_symptoms" (some allRequiredCtx) (some (collectedInfo allRequiredCtx))
    none none (some askSymptomsMessage) none

/-- Context in which every field holds the empty string. -/
def allEmptyStrCtx : Ctx :=
  initContext.map (fun kv => (kv.1, some (Value.str "")))

/-! Helper lemmas about the association-list dictionary operations. -/

theorem ctxGet_ctxSet_ne (c : Ctx) (k k' : String) (v : Option Value) (h : k' ≠ k) :
    ctxGet (ctxSet c k v) k' = ctxGet c k' := by
  induction c with
  | nil => rfl
  | cons kv rest ih =>
    simp only [ctxSet]
    by_cases hk : kv.1 = k
    · rw [if_pos hk]
      simp only [ctxGet]
      rw [if_neg (by rw [hk]; exact fun he => h he.symm),
        if_neg (by rw [hk]; exact fun he => h he.symm)]
      exact ih
    · rw [if_neg hk]
      simp only [ctxGet]
      by_cases hk' : kv.1 = k'
      · rw [if_pos hk', if_pos hk']
      · rw [if_neg hk', if_neg hk']
        exact ih

theorem ctxGet_ctxSet_self (c : Ctx) (k : String) (v : Option Value)
    (h : ctxGet c k ≠ none) : ctxGet (ctxSet c k v) k = some v := by
  induction c with
  | nil => exact absurd rfl h
  | cons kv rest ih =>
    simp only [ctxSet]
    by_cases hk : kv.1 = k
    · rw [if_pos hk]
      simp only [ctxGet]
      rw [if_pos hk]
    · rw [if_neg hk]
      simp only [ctxGet] at h ⊢
      rw [if_neg hk] at h
      rw [if_neg hk]
      exact ih h

theorem dictGet_of_ctxGet (c : Ctx) (k : String) (w : Option Value)
    (h : ctxGet c k = some w) : dictGet c k = w := by
  rw [dictGet, h]

theorem mergeStep_preserves_truthy (extracted : Extracted) :
    ∀ ctx k cur, ctxGet ctx k = some cur → optTruthy cur = true →
      ctxGet (mergeStep ctx extracted).1 k = some cur := by
  induction extracted with
  | nil => intro ctx k cur h _; exact h
  | cons kv rest ih =>
    intro ctx k cur h htr
    obtain ⟨k', v⟩ := kv
    simp only [mergeStep]
    by_cases hv : optTruthy v = true
    · rw [if_pos hv]
      cases hg : ctxGet ctx k' with
      | none => exact h
      | some cur' =>
        show ctxGet (if optTruthy cur' = true then mergeStep ctx rest
          else mergeStep (ctxSet ctx k' v) rest).1 k = some cur
        by_cases hc : optTruthy cur' = true
        · rw [if_pos hc]
          exact ih ctx k cur h htr
        · rw [if_neg hc]
          have hkk : k ≠ k' := by
            intro he
            subst he
            have : cur = cur' := by
              have := h.symm.trans hg
              injection this
            rw [← this] at hc
            exact hc htr
          exact ih _ k cur (by rw [ctxGet_ctxSet_ne ctx k' k v hkk]; exact h) htr
    · rw [if_neg hv]
      exact ih ctx k cur h htr

theorem foldlUpdate_preserves_truthy (extracted : Extracted) (keys : List String) :
    ∀ ctx k cur, ctxGet ctx k = some cur → optTruthy cur = true →
      ctxGet (keys.foldl (fun c key =>
        if optTruthy (dictGet extracted key) && !optTruthy (dictGet c key) then
          ctxSet c key (dictGet extracted key)
        else c) ctx) k = some cur := by
  induction keys with
  | nil => intro ctx k cur h _; exact h
  | cons key ks ih =>
    intro ctx k cur h htr
    simp only [List.foldl_cons]
    by_cases hcond :
        (optTruthy (dictGet extracted key) && !optTruthy (dictGet ctx key)) = true
    · rw [if_pos hcond]
      have hkk : k ≠ key := by
        intro he
        subst he
        rw [dictGet_of_ctxGet ctx k cur h, htr] at hcond
        simp at hcond
      exact ih _ k cur (by rw [ctxGet_ctxSet_ne ctx key k _ hkk]; exact h) htr
    · rw [if_neg hcond]
      exact ih ctx k cur h htr

theorem update_preserves_truthy (ctx : Ctx) (extracted : Extracted) (k : String)
    (cur : Option Value) (h : ctxGet ctx k = some cur) (htr : optTruthy cur = true) :
    ctxGet (update_appointment_context ctx extracted) k = some cur := by
  rw [update_appointment_context]
  by_cases he : extracted.isEmpty
  · rw [if_pos he]; exact h
  · rw [if_neg he]
    exact foldlUpdate_preserves_truthy extracted (ctx.map Prod.fst) ctx k cur h htr

/-- Shape of every successful turn result: it snapshots the final context
under `extracted_info`, carries a message, sets no `response`, and branches
on whether the recomputed missing-required list is empty. -/
theorem booking_ok_shape (og : String → Except String String)
    (jl : String → Option Extracted) (ctx : Ctx) (s : String) (ctx1 : Ctx)
    (tr : TurnResult)
    (h : process_appointment_booking og jl ctx s = (ctx1, Except.ok tr)) :
    tr.extracted_info = some ctx1 ∧ tr.message.isSome = true ∧ tr.response = none ∧
    (if identify_missing_info_logic ctx1 = [] then
      tr.status = "ask_symptoms" ∧ tr.missing_fields = none ∧ tr.questions = none
    else
      tr.status = "collecting_info" ∧
      tr.missing_fields = some (identify_missing_info_logic ctx1) ∧
      tr.questions.isSome = true) := by
  simp only [process_appointment_booking] at h
  cases hm : mergeStep ctx (extract_appointment_info_logic og jl s) with
  | mk c1 e =>
    rw [hm] at h
    cases e with
    | some err => exact absurd h (by simp)
    | none =>
      dsimp only at h
      by_cases hmiss : identify_missing_info_logic (symptomFallback c1) = []
      · rw [if_neg (by simp [hmiss])] at h
        simp only [Prod.mk.injEq, Except.ok.injEq] at h
        obtain ⟨hc, ht⟩ := h
        subst hc
        subst ht
        rw [if_pos hmiss]
        exact ⟨rfl, rfl, rfl, rfl, rfl, rfl⟩
      · rw [if_pos (by simp [hmiss])] at h
        simp only [Prod.mk.injEq, Except.ok.injEq] at h
        obtain ⟨hc, ht⟩ := h
        subst hc
        subst ht
        rw [if_neg hmiss]
        exact ⟨rfl, rfl, rfl, rfl, rfl, rfl⟩

/-! Claim theorems. -/

/-- C1 (counterexample): an extraction carrying a truthy `patient_age`
value makes the merge loop raise `KeyError` after `doctor_specialty` was
already written, so the turn ends in an error-status result while the
context differs from the context before the turn — the claim's
"no field changed" part is false. -/
theorem C1_context_changed_on_error_cex :
    (process_user_input oracleEmpty parseWithAge initContext "hi").1.status = "error" ∧
    (process_user_input oracleEmpty parseWithAge initContext "hi").2 ≠ initContext :=
  ⟨rfl, by decide⟩

/-- C1 (amended): if any exception is raised while processing a turn, then
`process_user_input` returns an error-status result carrying the
exception's message; the context after the turn is the context as mutated
up to the point of failure (fields merged before the exception keep their
new values, so it need not equal the context before the turn). -/
theorem C1_error_status_with_message (og : String → Except String String)
    (jl : String → Option Extracted) (ctx : Ctx) (s e : String)
    (h : (process_appointment_booking og jl ctx s).2 = Except.error e) :
    process_user_input og jl ctx s =
      (TurnResult.mk "error" none none none none none (some e),
       (process_appointment_booking og jl ctx s).1) := by
  simp only [process_user_input]
  cases hp : process_appointment_booking og jl ctx s with
  | mk c r =>
    rw [hp] at h
    cases r with
    | ok tr => exact absurd h (by simp)
    | error e2 =>
      simp only at h
      injection h with h
      subst h
      rfl

/-- C1 witness: the `patient_age` `KeyError` turn, run at concrete inputs. -/
theorem C1_error_status_with_message_witness :
    process_user_input oracleEmpty parseWithAge initContext "hi" =
      (TurnResult.mk "error" none none none none none (some "\x27patient_age\x27"),
       (process_appointment_booking oracleEmpty parseWithAge initContext "hi").1) :=
  C1_error_status_with_message oracleEmpty parseWithAge initContext "hi"
    "\x27patient_age\x27" rfl

/-- C2 (counterexample): the context created by the program has no slot for
`patient_age` or `patient_phone`, two of the eight schema fields, and the
merge step raises `KeyError` on a truthy extracted `patient_age` instead of
storing it. -/
theorem C2_missing_slots_cex :
    ctxGet initContext "patient_age" = none ∧
    ctxGet initContext "patient_phone" = none ∧
    (mergeStep initContext [("patient_age", some (Value.str "30"))]).2 =
      some "\x27patient_age\x27" :=
  ⟨rfl, rfl, rfl⟩

/-- C2 (amended): the appointment context holds a slot for six of the
schema's eight fields (doctor_specialty, preferred_date, preferred_time,
patient_name, reason, symptoms), all initialized absent; for a field that
has a slot, the merge step stores an extracted non-null/non-empty value
when the slot's current value is empty; for a schema field without a slot
(patient_age, patient_phone) a truthy extracted value raises `KeyError`. -/
theorem C2_six_slot_schema_merge (ctx : Ctx) (k : String) (v : Value)
    (rest : Extracted) (cur : Option Value) (hv : v.truthy = true) :
    (initContext.map Prod.fst =
      ["doctor_specialty", "preferred_date", "preferred_time",
       "patient_name", "reason", "symptoms"] ∧
     ∀ kv ∈ initContext, kv.2 = none) ∧
    (ctxGet ctx k = some cur → optTruthy cur = false →
      mergeStep ctx ((k, some v) :: rest) = mergeStep (ctxSet ctx k (some v)) rest ∧
      ctxGet (ctxSet ctx k (some v)) k = some (some v)) ∧
    (ctxGet ctx k = none →
      mergeStep ctx ((k, some v) :: rest) = (ctx, some ("\x27" ++ k ++ "\x27"))) := by
  refine ⟨⟨by decide, by decide⟩, ?_, ?_⟩
  · intro hget hcur
    constructor
    · simp only [mergeStep]
      rw [if_pos (show optTruthy (some v) = true from hv), hget]
      show (if optTruthy cur = true then mergeStep ctx rest
        else mergeStep (ctxSet ctx k (some v)) rest) = mergeStep (ctxSet ctx k (some v)) rest
      rw [if_neg (by simp [hcur])]
    · exact ctxGet_ctxSet_self ctx k (some v)
        (by rw [hget]; exact fun hh => Option.noConfusion hh)
  · intro hget
    simp only [mergeStep]
    rw [if_pos (show optTruthy (some v) = true from hv), hget]

/-- C2 witness: a truthy specialty lands in the empty slot of the fresh
context. -/
theorem C2_six_slot_schema_merge_witness :
    mergeStep initContext [("doctor_specialty", some (Value.str "cardiology"))] =
      mergeStep (ctxSet initContext "doctor_specialty" (some (Value.str "cardiology"))) [] ∧
    ctxGet (ctxSet initContext "doctor_specialty" (some (Value.str "cardiology")))
      "doctor_specialty" = some (some (Value.str "cardiology")) :=
  (C2_six_slot_schema_merge initContext "doctor_specialty" (Value.str "cardiology")
    [] none (by decide)).2.1 (by decide) (by decide)

/-- C3: neither the inline merge loop of a turn (`mergeStep`) nor
`update_appointment_context` ever overwrites a context field that already
holds a truthy (non-empty) value: such a field reads back unchanged after
the merge. -/
theorem C3_first_write_wins (extracted : Extracted) (ctx : Ctx) (k : String)
    (cur : Option Value) (hget : ctxGet ctx k = some cur)
    (htr : optTruthy cur = true) :
    ctxGet (mergeStep ctx extracted).1 k = some cur ∧
    ctxGet (update_appointment_context ctx extracted) k = some cur :=
  ⟨mergeStep_preserves_truthy extracted ctx k cur hget htr,
   update_preserves_truthy ctx extracted k cur hget htr⟩

/-- C3 witness: an extraction proposing "dermatology" does not overwrite an
existing "cardiology". -/
theorem C3_first_write_wins_witness :
    ctxGet (mergeStep (ctxSet initContext "doctor_specialty" (some (Value.str "cardiology")))
        [("doctor_specialty", some (Value.str "dermatology"))]).1 "doctor_specialty" =
      some (some (Value.str "cardiology")) ∧
    ctxGet (update_appointment_context
        (ctxSet initContext "doctor_specialty" (some (Value.str "cardiology")))
        [("doctor_specialty", some (Value.str "dermatology"))]) "doctor_specialty" =
      some (some (Value.str "cardiology")) :=
  C3_first_write_wins [("doctor_specialty", some (Value.str "dermatology"))]
    (ctxSet initContext "doctor_specialty" (some (Value.str "cardiology")))
    "doctor_specialty" (some (Value.str "cardiology")) (by decide) (by decide)

/-- C4: `identify_missing_info_logic` returns exactly the required fields
with an empty value, as a sublist of (hence in the order of)
`required_fields`; it is empty iff every required field is truthy, and no
non-required field (patient_age, patient_phone, symptoms) ever appears. -/
theorem C4_missing_required_exact (ctx : Ctx) :
    List.Sublist (identify_missing_info_logic ctx) required_fields ∧
    (identify_missing_info_logic ctx = [] ↔
      ∀ f ∈ required_fields, optTruthy (dictGet ctx f) = true) ∧
    (∀ f, f ∈ identify_missing_info_logic ctx ↔
      f ∈ required_fields ∧ optTruthy (dictGet ctx f) = false) ∧
    "patient_age" ∉ identify_missing_info_logic ctx ∧
    "patient_phone" ∉ identify_missing_info_logic ctx ∧
    "symptoms" ∉ identify_missing_info_logic ctx := by
  have hmem : ∀ f, f ∈ identify_missing_info_logic ctx ↔
      f ∈ required_fields ∧ optTruthy (dictGet ctx f) = false := by
    intro f
    rw [identify_missing_info_logic, List.mem_filter]
    simp [Bool.not_eq_true']
  refine ⟨List.filter_sublist _, ?_, hmem, ?_, ?_, ?_⟩
  · rw [identify_missing_info_logic, List.filter_eq_nil_iff]
    constructor
    · intro h f hf
      have := h f hf
      simpa using this
    · intro h f hf
      simp [h f hf]
  · intro hmem2
    exact absurd ((hmem _).mp hmem2).1 (by decide)
  · intro hmem2
    exact absurd ((hmem _).mp hmem2).1 (by decide)
  · intro hmem2
    exact absurd ((hmem _).mp hmem2).1 (by decide)

/-- C5 (counterexample): the merge step of a regular turn stores a
list-typed `symptoms` value as the list itself, not as a comma-joined
string — so lists are not joined "wherever they are written". -/
theorem C5_merge_stores_list_cex :
    dictGet (mergeStep initContext
        [("symptoms", some (Value.list ["cough", "fever"]))]).1 "symptoms" =
      some (Value.list ["cough", "fever"]) ∧
    dictGet (mergeStep initContext
        [("symptoms", some (Value.list ["cough", "fever"]))]).1 "symptoms" ≠
      some (Value.str "cough, fever") :=
  ⟨rfl, by decide⟩

/-- C5 (amended): in the post-completion symptom-append path, list-typed
values are joined into comma-separated strings: appending extracted
symptoms to an existing truthy value stores
`join existing ++ ", " ++ join new` (a list-valued existing value joined
first), so "cough" plus "fever" gives "cough, fever"; the merge step of a
regular turn, by contrast, stores list values unjoined. -/
theorem C5_append_joins (ctx : Ctx) (existing v : Value) (extracted : Extracted)
    (hget : ctxGet ctx "symptoms" = some (some existing))
    (hext : dictGet extracted "symptoms" = some v)
    (hexT : existing.truthy = true) (hvT : v.truthy = true) :
    ctxGet (append_symptoms ctx extracted) "symptoms" =
      some (some (Value.str (valueJoin existing ++ ", " ++ valueJoin v))) := by
  simp only [append_symptoms]
  rw [hext]
  simp only [hvT, if_true]
  rw [dictGet_of_ctxGet ctx "symptoms" (some existing) hget]
  simp only [hexT, if_true]
  exact ctxGet_ctxSet_self ctx "symptoms" _
    (by rw [hget]; exact fun hh => Option.noConfusion hh)

/-- C5 witness: existing "cough" with new "fever" yields "cough, fever". -/
theorem C5_append_joins_witness :
    ctxGet (append_symptoms (ctxSet initContext "symptoms" (some (Value.str "cough")))
        [("symptoms", some (Value.str "fever"))]) "symptoms" =
      some (some (Value.str (valueJoin (Value.str "cough") ++ ", " ++
        valueJoin (Value.str "fever")))) :=
  C5_append_joins (ctxSet initContext "symptoms" (some (Value.str "cough")))
    (Value.str "cough") (Value.str "fever") [("symptoms", some (Value.str "fever"))]
    (by decide) (by decide) (by decide) (by decide)

/-- C6 (counterexample): the error-status result of a turn that raises
carries neither a context snapshot nor a message — only the status and the
exception text under the `response` key. -/
theorem C6_error_result_bare_cex :
    (process_user_input oracleEmpty parseWithAge initContext "hi").1.message = none ∧
    (process_user_input oracleEmpty parseWithAge initContext "hi").1.extracted_info = none ∧
    (process_user_input oracleEmpty parseWithAge initContext "hi").1.response =
      some "\x27patient_age\x27" :=
  ⟨rfl, rfl, rfl⟩

/-- C6 (amended): every successful turn result carries the full current
context snapshot and a human-readable message (and no `response` key); the
error-status variant instead carries only the exception's message under
`response`, with no context snapshot and no `message` key. -/
theorem C6_result_payload (og : String → Except String String)
    (jl : String → Option Extracted) (ctx : Ctx) (s : String) :
    ((process_user_input og jl ctx s).1.status = "error" ∧
     (process_user_input og jl ctx s).1.extracted_info = none ∧
     (process_user_input og jl ctx s).1.message = none ∧
     (process_user_input og jl ctx s).1.response.isSome = true) ∨
    ((process_user_input og jl ctx s).1.extracted_info =
        some (process_user_input og jl ctx s).2 ∧
     (process_user_input og jl ctx s).1.message.isSome = true ∧
     (process_user_input og jl ctx s).1.response = none) := by
  cases hp : process_appointment_booking og jl ctx s with
  | mk c r =>
    cases r with
    | error e =>
      have heq : process_user_input og jl ctx s =
          (TurnResult.mk "error" none none none none none (some e), c) := by
        simp only [process_user_input]
        rw [hp]
      rw [heq]
      exact Or.inl ⟨rfl, rfl, rfl, rfl⟩
    | ok tr =>
      have heq : process_user_input og jl ctx s = (tr, c) := by
        simp only [process_user_input]
        rw [hp]
      rw [heq]
      have hs := booking_ok_shape og jl ctx s c tr hp
      exact Or.inr ⟨hs.1, hs.2.1, hs.2.2.1⟩

/-- C7: when the merge of a turn succeeds and leaves `symptoms` truthy and
`reason` empty, the fallback copies `symptoms` into `reason` while leaving
`symptoms` unchanged, and the turn's final context is exactly that
fallback result — so post-merge `reason` equals post-merge `symptoms`. -/
theorem C7_symptoms_as_reason (c1 : Ctx) (hkey : ctxGet c1 "reason" ≠ none)
    (hs : optTruthy (dictGet c1 "symptoms") = true)
    (hr : optTruthy (dictGet c1 "reason") = false) :
    dictGet (symptomFallback c1) "reason" = dictGet c1 "symptoms" ∧
    dictGet (symptomFallback c1) "symptoms" = dictGet c1 "symptoms" ∧
    ∀ og jl ctx0 s,
      mergeStep ctx0 (extract_appointment_info_logic og jl s) = (c1, none) →
      (process_appointment_booking og jl ctx0 s).1 = symptomFallback c1 := by
  have hcond :
      (optTruthy (dictGet c1 "symptoms") && !optTruthy (dictGet c1 "reason")) = true := by
    rw [hs, hr]
    rfl
  have hfb : symptomFallback c1 = ctxSet c1 "reason" (dictGet c1 "symptoms") := by
    rw [symptomFallback, if_pos hcond]
  refine ⟨?_, ?_, ?_⟩
  · rw [hfb]
    exact dictGet_of_ctxGet _ _ _
      (ctxGet_ctxSet_self c1 "reason" (dictGet c1 "symptoms") hkey)
  · rw [hfb, dictGet, ctxGet_ctxSet_ne c1 "reason" "symptoms" _ (by decide), ← dictGet]
  · intro og jl ctx0 s hm
    simp only [process_appointment_booking]
    rw [hm]
    dsimp only
    split <;> rfl

/-- C7 witness: merged context with `symptoms = "fever"` and empty `reason`
ends the turn with `reason = symptoms`. -/
theorem C7_symptoms_as_reason_witness :
    dictGet (symptomFallback (ctxSet initContext "symptoms" (some (Value.str "fever"))))
      "reason" =
    dictGet (ctxSet initContext "symptoms" (some (Value.str "fever"))) "symptoms" :=
  (C7_symptoms_as_reason (ctxSet initContext "symptoms" (some (Value.str "fever")))
    (by decide) (by decide) (by decide)).1

/-- C8: the extraction step is a total function (it never raises to its
caller); an oracle response whose stripped text does not parse as JSON
yields the empty mapping; a failed oracle call degrades to the empty string
and likewise extracts nothing; an empty extraction leaves the context
untouched both in the turn's merge loop and in
`update_appointment_context`; the last conjunct runs the oracle-failure
path at concrete inputs. -/
theorem C8_extraction_never_raises (og : String → Except String String)
    (jl : String → Option Extracted) (s r e : String) (ctx : Ctx) :
    (og (extractionPrompt s) = Except.ok r → jl (stripResponse r) = none →
      extract_appointment_info_logic og jl s = []) ∧
    (og (extractionPrompt s) = Except.error e → jl "" = none →
      extract_appointment_info_logic og jl s = []) ∧
    mergeStep ctx [] = (ctx, none) ∧
    update_appointment_context ctx [] = ctx ∧
    extract_appointment_info_logic (fun _ => Except.error "connection refused")
      (fun t => if t = "" then none else some []) "hello" = [] := by
  refine ⟨?_, ?_, rfl, rfl, by decide⟩
  · intro h1 h2
    simp only [extract_appointment_info_logic, call_ollama]
    rw [h1, h2]
  · intro h1 h2
    simp only [extract_appointment_info_logic, call_ollama]
    rw [h1]
    have hstrip : stripResponse "" = "" := by decide
    rw [hstrip, h2]

/-- C9: a successful turn has status `collecting_info` exactly when the
missing-required list of the final context is non-empty (and then carries
that list and question text), and status `ask_symptoms` exactly when it is
empty. -/
theorem C9_status_matches_missing (og : String → Except String String)
    (jl : String → Option Extracted) (ctx ctx' : Ctx) (s : String) (r : TurnResult)
    (h : process_appointment_booking og jl ctx s = (ctx', Except.ok r)) :
    (r.status = "collecting_info" ↔ identify_missing_info_logic ctx' ≠ []) ∧
    (r.status = "ask_symptoms" ↔ identify_missing_info_logic ctx' = []) ∧
    (identify_missing_info_logic ctx' ≠ [] →
      r.missing_fields = some (identify_missing_info_logic ctx') ∧
      r.questions.isSome = true) := by
  have hs := booking_ok_shape og jl ctx s ctx' r h
  by_cases hmiss : identify_missing_info_logic ctx' = []
  · rw [if_pos hmiss] at hs
    refine ⟨?_, ?_, ?_⟩
    · constructor
      · intro hst
        rw [hs.2.2.2.1] at hst
        exact absurd hst (by decide)
      · intro hne
        exact absurd hmiss hne
    · exact ⟨fun _ => hmiss, fun _ => hs.2.2.2.1⟩
    · intro hne
      exact absurd hmiss hne
  · rw [if_neg hmiss] at hs
    refine ⟨?_, ?_, ?_⟩
    · exact ⟨fun _ => hmiss, fun _ => hs.2.2.2.1⟩
    · constructor
      · intro hst
        rw [hs.2.2.2.1] at hst
        exact absurd hst (by decide)
      · intro heq
        exact absurd heq hmiss
    · intro _
      exact ⟨hs.2.2.2.2.1, hs.2.2.2.2.2⟩

/-- C9 witness: a turn that fills all five required fields returns
`ask_symptoms`; the status/missing equivalence holds at that concrete
run. -/
theorem C9_status_matches_missing_witness :
    allRequiredTurnResult.status = "collecting_info" ↔
      identify_missing_info_logic allRequiredCtx ≠ [] :=
  (C9_status_matches_missing oracleQ parseAllRequired initContext allRequiredCtx
    "hi" allRequiredTurnResult rfl).1

/-- C10: `is_all_fields_filled` is true iff no context value is `None`; on
the context whose every field holds the empty string it returns true even
though `identify_missing_info_logic` reports all five required fields of
that same context as missing. -/
theorem C10_filled_ignores_empty_strings (ctx : Ctx) :
    (is_all_fields_filled ctx = true ↔ ∀ kv ∈ ctx, kv.2 ≠ none) ∧
    (is_all_fields_filled allEmptyStrCtx = true ∧
     identify_missing_info_logic allEmptyStrCtx = required_fields) := by
  constructor
  · rw [is_all_fields_filled, List.all_eq_true]
    constructor
    · intro h kv hkv hnone
      have := h kv hkv
      rw [hnone] at this
      simp at this
    · intro h kv hkv
      cases hv2 : kv.2 with
      | none => exact absurd hv2 (h kv hkv)
      | some v => rfl
  · exact ⟨by decide, by decide⟩

end VaaniCare
